import Mathlib

/-!
Shallow embedding of the FAO ETL scripts `py/parse_enhanced.py` and
`py/extend_timeseries.py` of the d2-nutrition-vibes repository, together with
proofs settling the frozen claims about them.

Modelling conventions:
* a CSV row is a `RawRow`; its `Value` cell is an `Option ℚ` (`none` models a
  missing / unparsable value, which `pd.to_numeric(errors='coerce')` turns
  into NaN and `dropna` removes; `pd.isna` is `Option.isNone`);
* float values are modelled by exact rationals;
* a pandas boolean-mask filter is `List.filter` (it keeps the original row
  order); `groupby` is modelled as iteration over the sorted distinct keys,
  each group being the sublist of rows with that key, in original order
  (pandas `groupby(sort=True)` semantics);
* a Python dict used as a record is an association list updated with
  last-write-wins semantics (`setKey`), looked up with `getKey`.
-/

set_option allowUnsafeReducibility true in
attribute [semireducible] Rat.mul Rat.add Rat.sub Rat.inv Rat.ofScientific

/-! ## Generic list helpers (kernel-computable replacements for pandas idioms) -/

/-- Distinct values of a list keeping the first occurrence of each, like
`pandas.unique` (which preserves order of first appearance). -/
def dedupFirstAux {α : Type} [DecidableEq α] (seen : List α) : List α → List α
  | [] => []
  | a :: rest =>
    if a ∈ seen then dedupFirstAux seen rest
    else a :: dedupFirstAux (a :: seen) rest

/-- Distinct values in order of first appearance. -/
def dedupFirst {α : Type} [DecidableEq α] (l : List α) : List α :=
  dedupFirstAux [] l

/-- Insert into a list sorted by `le` (stable: an element is placed before the
first existing element `b` with `le a b`). -/
def insertBy {α : Type} (le : α → α → Bool) (a : α) : List α → List α
  | [] => [a]
  | b :: rest => if le a b then a :: b :: rest else b :: insertBy le a rest

/-- Stable insertion sort by the Boolean relation `le`. -/
def sortBy {α : Type} (le : α → α → Bool) (l : List α) : List α :=
  l.foldr (insertBy le) []

/-- Update an association list at a key: replaces the value of an existing
binding in place, otherwise appends the binding at the end.  This is the
behaviour of `d[k] = v` on a Python dict. -/
def setKey {κ : Type} [DecidableEq κ] : List (κ × ℚ) → κ → ℚ → List (κ × ℚ)
  | [], k, v => [(k, v)]
  | (k0, v0) :: rest, k, v =>
    if k0 = k then (k, v) :: rest else (k0, v0) :: setKey rest k v

/-- Look up a key in an association list (first binding wins, as in a dict
whose keys are unique). -/
def getKey {κ : Type} [DecidableEq κ] : List (κ × ℚ) → κ → Option ℚ
  | [], _ => none
  | (k0, v0) :: rest, k => if k0 = k then some v0 else getKey rest k

/-- Apply `f` to the element at position `i`, like assigning through a Python
reference into a list. -/
def modifyIdx {α : Type} (f : α → α) : Nat → List α → List α
  | _, [] => []
  | 0, a :: rest => f a :: rest
  | n + 1, a :: rest => a :: modifyIdx f n rest

/-- Does `needle` occur at the start of `hay`? -/
def startsWithChars : List Char → List Char → Bool
  | [], _ => true
  | _ :: _, [] => false
  | a :: as, b :: bs => a == b && startsWithChars as bs

/-- Does `needle` occur as a contiguous substring of `hay`?  Used to model
Python's `in` / pandas `str.contains` on strings. -/
def containsChars (needle : List Char) : List Char → Bool
  | [] => needle.isEmpty
  | c :: rest => startsWithChars needle (c :: rest) || containsChars needle rest

/-- Lower-cased character list of a string, modelling `str.lower()`
(kernel-computable, unlike `String.toLower`). -/
def lowerChars (s : String) : List Char := s.data.map Char.toLower

/-- Code-point comparison of character lists (Python string `<=`). -/
def charListLe : List Char → List Char → Bool
  | [], _ => true
  | _ :: _, [] => false
  | a :: as, b :: bs =>
    if a.val < b.val then true
    else if b.val < a.val then false
    else charListLe as bs

/-- Python string comparison, by code points. -/
def strLe (a b : String) : Bool := charListLe a.data b.data

/-- Strict version of `strLe`. -/
def strLt (a b : String) : Bool := strLe a b && !(a == b)

/-- Lexicographic order on (Area, Item) pairs, the sort order of
`groupby(['Area', 'Item'])`. -/
def pairLe (a b : String × String) : Bool :=
  if a.1 == b.1 then strLe a.2 b.2 else strLt a.1 b.1

/-- Lexicographic order on (Area, Item, Year) triples, the sort order of
`groupby(['Area', 'Item', 'Year'])`. -/
def tripleLe (a b : String × String × Int) : Bool :=
  if a.1 == b.1 then
    (if a.2.1 == b.2.1 then decide (a.2.2 ≤ b.2.2) else strLt a.2.1 b.2.1)
  else strLt a.1 b.1

/-- Ascending order on integers. -/
def intLe (a b : Int) : Bool := decide (a ≤ b)

/-- Sum of a list of rationals, modelling `Series.sum()` (an empty series sums
to 0.0). -/
def sumQ (l : List ℚ) : ℚ := l.foldr (· + ·) 0

/-- A rational is never NaN: this models `pd.notna` applied to any sum of
values that survived `dropna` (a sum of non-NaN floats is not NaN). -/
def notna (_ : ℚ) : Bool := true

/-! ## Data model -/

/-- A row of the source FAO CSV.  `value` is `none` when the `Value` cell is
missing or non-numeric (pandas NaN). -/
structure RawRow where
  area : String
  item : String
  element : String
  year : Int
  unit : String
  value : Option ℚ
deriving DecidableEq, Repr

/-- A cleaned observation: a row whose `Value` survived
`pd.to_numeric(errors='coerce')` + `dropna`. -/
structure Obs where
  area : String
  item : String
  element : String
  year : Int
  unit : String
  value : ℚ
deriving DecidableEq, Repr

/-- Keep the rows with a numeric `Value`, modelling
`to_numeric(errors='coerce')` followed by `dropna(subset=['Value'])`. -/
def dropna (l : List RawRow) : List Obs :=
  l.filterMap fun r =>
    r.value.map fun v =>
      { area := r.area, item := r.item, element := r.element,
        year := r.year, unit := r.unit, value := v }

/-! ## parse_enhanced.py : AGGREGATE_AREAS and load_and_filter_data -/

/-- The module-level denylist of aggregate regions of `parse_enhanced.py`
(lines 14-50), in source order. -/
def AGGREGATE_AREAS : List String :=
  ["World", "Africa", "Americas", "Asia", "Europe", "Oceania",
   "Eastern Africa", "Middle Africa", "Northern Africa", "Southern Africa",
   "Western Africa", "Eastern Asia", "South-eastern Asia", "Southern Asia",
   "Western Asia", "Central America", "South America", "Northern America",
   "Eastern Europe", "Northern Europe", "Southern Europe", "Western Europe",
   "European Union", "European Union (27)", "European Union (28)",
   "Land Locked Developing Countries", "Least Developed Countries",
   "Low Income Food Deficit Countries",
   "Net Food Importing Developing Countries",
   "Small Island Developing States"]

/-- Step 1 of `load_and_filter_data`:
`self.df = self.df[~self.df["Area"].isin(AGGREGATE_AREAS)]`. -/
def removeAggregateAreas (raw : List RawRow) : List RawRow :=
  raw.filter fun r => !(AGGREGATE_AREAS.contains r.area)

/-- The element string of the calorie sub-extractor. -/
def kcalElementName : String := "Food supply (kcal/capita/day)"

/-- The element allow-list `relevant_elements` of `load_and_filter_data`. -/
def relevant_elements : List String :=
  ["Import quantity", "Export quantity", "Production",
   "Domestic supply quantity", "Feed",
   "Protein supply quantity (t)", "Protein supply quantity (g/capita/day)",
   "Fat supply quantity (t)", "Fat supply quantity (g/capita/day)",
   "Processing"]

/-- The year-range / element / item predicate of the main filter of
`load_and_filter_data` (lines 108-114). -/
def filteredRowPred (r : RawRow) : Bool :=
  decide (2010 ≤ r.year) && decide (r.year ≤ 2022) &&
  relevant_elements.contains r.element &&
  !(containsChars "alcohol".data (lowerChars r.item)) &&
  !(containsChars "non-food".data (lowerChars r.item))

/-- `self.filtered_df`: aggregate areas removed, year in [2010, 2022], element
in the allow-list, item not containing "alcohol" / "non-food", `Value`
numeric. -/
def filtered_df (raw : List RawRow) : List Obs :=
  dropna ((removeAggregateAreas raw).filter filteredRowPred)

/-- The predicate of the calorie sub-extractor (lines 84-88). -/
def kcalRowPred (r : RawRow) : Bool :=
  decide (2010 ≤ r.year) && decide (r.year ≤ 2022) &&
  r.element == kcalElementName

/-- `self.kcal_df`: aggregate areas removed, year in [2010, 2022], element
equal to "Food supply (kcal/capita/day)", `Value` numeric. -/
def kcal_df (raw : List RawRow) : List Obs :=
  dropna ((removeAggregateAreas raw).filter kcalRowPred)

/-! ## parse_enhanced.py : create_country_timeseries -/

/-- The fixed element-name mapping of `_normalize_element_name`; an element
not in the table falls back to lower-case with underscores. -/
def normalize_element_name (e : String) : String :=
  if e == "Import quantity" then "imports"
  else if e == "Export quantity" then "exports"
  else if e == "Production" then "production"
  else if e == "Domestic supply quantity" then "domestic_supply"
  else if e == "Feed" then "feed"
  else if e == "Protein supply quantity (t)" then "protein"
  else if e == "Protein supply quantity (g/capita/day)" then "protein_gpcd"
  else if e == "Fat supply quantity (t)" then "fat"
  else if e == "Fat supply quantity (g/capita/day)" then "fat_gpcd"
  else if e == "Processing" then "processing"
  else String.mk (lowerChars e |>.map fun c => if c == ' ' then '_' else c)

/-- `mass_elements_kt`: the elements whose values are rescaled 1000 t → t. -/
def mass_elements_kt : List String :=
  ["Production", "Import quantity", "Export quantity",
   "Domestic supply quantity", "Feed", "Processing"]

/-- The value written for one source row of a year group: mass metrics are
multiplied by 1000, anything else is written unscaled (lines 213-226). -/
def scaleValue (r : Obs) : ℚ :=
  if mass_elements_kt.contains r.element then r.value * 1000 else r.value

/-- Per-year metric map: iterate the rows of the (country, item, year) group
in order, each row overwriting the binding of its normalized element key. -/
def buildYearMetrics (yearRows : List Obs) : List (String × ℚ) :=
  yearRows.foldl (fun m r => setKey m (normalize_element_name r.element) (scaleValue r)) []

/-- The calorie lookup keyed by (Area, Item, Year) built from `kcal_df`
(lines 182-185); on duplicate keys the last row wins. -/
def kcal_lookup (kcalRows : List Obs) : List ((String × String × Int) × ℚ) :=
  kcalRows.foldl (fun m r => setKey m (r.area, r.item, r.year) r.value) []

/-- One year entry of a timeseries record: the `year` field plus the metric
map. -/
structure YearRec where
  year : Int
  metrics : List (String × ℚ)
deriving DecidableEq, Repr

/-- One element of `timeseries.json`. -/
structure TimeseriesRecord where
  country : String
  item : String
  unit : String
  data : List YearRec
deriving DecidableEq, Repr

/-- The year record emitted for one (country, item, year) triple: the metric
fold over the year group followed by the conditional `food_supply_kcal`
injection (lines 205-232). -/
def yearRecordFor (group : List Obs) (kl : List ((String × String × Int) × ℚ))
    (c i : String) (y : Int) : YearRec :=
  let yearRows := group.filter fun r => r.year == y
  let m := buildYearMetrics yearRows
  match getKey kl (c, i, y) with
  | some v => { year := y, metrics := setKey m "food_supply_kcal" v }
  | none => { year := y, metrics := m }

/-- The rows of the (country, item) group, in original order. -/
def groupOf (filtered : List Obs) (c i : String) : List Obs :=
  filtered.filter fun r => r.area == c && r.item == i

/-- The sorted distinct years of a group (`groupby('Year')` key order). -/
def yearsOf (group : List Obs) : List Int :=
  sortBy intLe (dedupFirst (group.map (·.year)))

/-- The timeseries record of one (country, item) group.  The unit label is the
constant "t" (`base_unit`, line 195). -/
def recordFor (filtered kcal : List Obs) (c i : String) : TimeseriesRecord :=
  let group := groupOf filtered c i
  { country := c, item := i, unit := "t",
    data := (yearsOf group).map (yearRecordFor group (kcal_lookup kcal) c i) }

/-- `create_country_timeseries`: one record per (country, item) pair of the
filtered table, keys iterated in sorted order (`groupby(['Area','Item'])`),
year records in ascending year order. -/
def create_country_timeseries (filtered kcal : List Obs) : List TimeseriesRecord :=
  (sortBy pairLe (dedupFirst (filtered.map fun r => (r.area, r.item)))).map
    fun p => recordFor filtered kcal p.1 p.2

/-! ## parse_enhanced.py : create_production_rankings -/

/-- Descending order on observation values; stable under `sortBy`, so ties
keep the first-occurring row, matching `nlargest(keep='first')`. -/
def valueDesc (a b : Obs) : Bool := decide (b.value ≤ a.value)

/-- `nlargest(n, 'Value')`: the first `n` rows of the stable descending
sort. -/
def nlargestByValue (n : Nat) (rows : List Obs) : List Obs :=
  (sortBy valueDesc rows).take n

/-- One producer line of a ranking. -/
structure ProducerEntry where
  country : String
  production : ℚ
  rank : Nat
deriving DecidableEq, Repr

/-- Build the producers list with ranks `start, start+1, ...` (the code uses
`len(producers) + 1` as it appends). -/
def producersFrom (start : Nat) : List Obs → List ProducerEntry
  | [] => []
  | r :: rest => { country := r.area, production := r.value, rank := start } :: producersFrom (start + 1) rest

/-- One element of `production_rankings.json`. -/
structure ItemRanking where
  item : String
  unit : String
  year : Int
  producers : List ProducerEntry
deriving DecidableEq, Repr

/-- `create_production_rankings`: per item of the 2022 production table, the
top 20 rows by value, ranked from 1. -/
def create_production_rankings (filtered : List Obs) : List ItemRanking :=
  let prod2022 := filtered.filter fun r => r.element == "Production" && r.year == 2022
  (sortBy strLe (dedupFirst (prod2022.map (·.item)))).map fun item =>
    let group := prod2022.filter fun r => r.item == item
    { item := item,
      unit := ((group.head?).map (·.unit)).getD "1000 t",
      year := 2022,
      producers := producersFrom 1 (nlargestByValue 20 group) }

/-! ## parse_enhanced.py : create_trade_balance -/

/-- One element of `trade_balance.json`.  `netImporter` is `none` exactly when
the code writes Python `None` (the `pd.notna` guard fails). -/
structure TradeEntry where
  country : String
  item : String
  year : Int
  unit : String
  imports : ℚ
  exports : ℚ
  tradeBalance : ℚ
  netImporter : Option Bool
deriving DecidableEq, Repr

/-- The import/export subset of the filtered table (line 307-309). -/
def tradeDataOf (filtered : List Obs) : List Obs :=
  filtered.filter fun r =>
    r.element == "Import quantity" || r.element == "Export quantity"

/-- The trade-balance entry of one (country, item, year) group: each side is
summed independently (an absent side is an empty sum, 0.0); the `pd.notna`
guards of lines 325-328 are modelled by `notna`. -/
def tradeEntryFor (filtered : List Obs) (c i : String) (y : Int) : TradeEntry :=
  let group := (tradeDataOf filtered).filter fun r =>
    r.area == c && r.item == i && r.year == y
  let imports := sumQ ((group.filter fun r => r.element == "Import quantity").map (·.value))
  let exports := sumQ ((group.filter fun r => r.element == "Export quantity").map (·.value))
  { country := c, item := i, year := y,
    unit := ((group.head?).map (·.unit)).getD "1000 t",
    imports := if notna imports then imports else 0,
    exports := if notna exports then exports else 0,
    tradeBalance := if notna exports && notna imports then exports - imports else 0,
    netImporter :=
      if notna imports && notna exports then some (decide (imports > exports)) else none }

/-- `create_trade_balance`: group the import/export rows by (country, item,
year); one entry per group (lines 314-331). -/
def create_trade_balance (filtered : List Obs) : List TradeEntry :=
  (sortBy tripleLe (dedupFirst ((tradeDataOf filtered).map fun r => (r.area, r.item, r.year)))).map
    fun t => tradeEntryFor filtered t.1 t.2.1 t.2.2

/-! ## parse_enhanced.py : create_aggregated_summaries -/

/-- One entry of the global yearly totals. -/
structure YearSummary where
  year : Int
  metrics : List (String × ℚ)
deriving DecidableEq, Repr

/-- The whole of `summary.json`. -/
structure SummaryData where
  globalYearlyTotals : List YearSummary
  topProducingCountries : List (String × ℚ)
  topProducedItems : List (String × ℚ)
deriving DecidableEq, Repr

/-- The four elements summed in the global yearly totals. -/
def summaryElements : List String :=
  ["Production", "Import quantity", "Export quantity", "Domestic supply quantity"]

/-- Descending order on (key, total) pairs by total. -/
def pairValueDesc (a b : String × ℚ) : Bool := decide (b.2 ≤ a.2)

/-- The Production rows of the filtered table. -/
def productionRowsOf (filtered : List Obs) : List Obs :=
  filtered.filter fun r => r.element == "Production"

/-- `groupby('Area')['Value'].sum()`: total production per country, keys in
sorted order. -/
def countryTotalsOf (filtered : List Obs) : List (String × ℚ) :=
  (sortBy strLe (dedupFirst ((productionRowsOf filtered).map (·.area)))).map fun c =>
    (c, sumQ (((productionRowsOf filtered).filter fun r => r.area == c).map (·.value)))

/-- `groupby('Item')['Value'].sum()`: total production per item. -/
def itemTotalsOf (filtered : List Obs) : List (String × ℚ) :=
  (sortBy strLe (dedupFirst ((productionRowsOf filtered).map (·.item)))).map fun i =>
    (i, sumQ (((productionRowsOf filtered).filter fun r => r.item == i).map (·.value)))

/-- One entry of the global yearly totals (lines 347-359). -/
def yearSummaryFor (filtered : List Obs) (y : Int) : YearSummary :=
  let yearRows := filtered.filter fun r => r.year == y
  { year := y,
    metrics := summaryElements.foldl (fun m e =>
      let total := sumQ ((yearRows.filter fun r => r.element == e).map (·.value))
      setKey m (normalize_element_name e) (if notna total then total else 0)) [] }

/-- `create_aggregated_summaries` (lines 340-391). -/
def create_aggregated_summaries (filtered : List Obs) : SummaryData :=
  { globalYearlyTotals :=
      (sortBy intLe (dedupFirst (filtered.map (·.year)))).map (yearSummaryFor filtered),
    topProducingCountries := (sortBy pairValueDesc (countryTotalsOf filtered)).take 30,
    topProducedItems := (sortBy pairValueDesc (itemTotalsOf filtered)).take 30 }

/-! ## parse_enhanced.py : create_network_data -/

/-- A node of `network.json`. -/
structure NetNode where
  id : String
  index : Nat
  totalTradeVolume : ℚ
  type : String
deriving DecidableEq, Repr

/-- A link of `network.json`. -/
structure NetLink where
  source : String
  target : String
  value : ℚ
  item : String
deriving DecidableEq, Repr

/-- The whole of `network.json`. -/
structure NetworkData where
  nodes : List NetNode
  links : List NetLink
deriving DecidableEq, Repr

/-- The 2022 trade table with only significant volumes (`Value > 100`),
lines 398-402. -/
def trade2022Of (filtered : List Obs) : List Obs :=
  filtered.filter fun r =>
    r.year == 2022 &&
    (r.element == "Import quantity" || r.element == "Export quantity") &&
    decide ((100 : ℚ) < r.value)

/-- Nodes with consecutive indices from `start` (Python `enumerate`; the
iteration order of the Python `set` of countries is unspecified, first
appearance order is used here — no claim depends on node order). -/
def networkNodesFrom (trade : List Obs) (start : Nat) : List String → List NetNode
  | [] => []
  | c :: rest =>
    { id := c, index := start,
      totalTradeVolume := sumQ ((trade.filter fun r => r.area == c).map (·.value)),
      type := "country" } :: networkNodesFrom trade (start + 1) rest

/-- The top-5 export rows of an item by value (`nlargest(5, 'Value')`). -/
def top5Exporters (trade : List Obs) (item : String) : List Obs :=
  nlargestByValue 5 ((trade.filter fun r => r.item == item).filter fun r =>
    r.element == "Export quantity")

/-- The top-5 import rows of an item by value. -/
def top5Importers (trade : List Obs) (item : String) : List Obs :=
  nlargestByValue 5 ((trade.filter fun r => r.item == item).filter fun r =>
    r.element == "Import quantity")

/-- The items the link loop iterates over: `trade_2022['Item'].unique()[:10]`,
the first ten distinct items in row order (the inline comment says "Top 10
Items" but no sorting by volume happens). -/
def linkItems (trade : List Obs) : List String :=
  (dedupFirst (trade.map (·.item))).take 10

/-- The links of `create_network_data` (lines 422-440): one hypothetical edge
per (top-5 export row, top-5 import row) pair with distinct countries, with
value 10% of the smaller of the two volumes. -/
def networkLinks (trade : List Obs) : List NetLink :=
  (linkItems trade).flatMap fun item =>
    (top5Exporters trade item).flatMap fun e =>
      (top5Importers trade item).filterMap fun i =>
        if e.area ≠ i.area then
          some { source := e.area, target := i.area,
                 value := min e.value i.value * (1 / 10), item := item }
        else none

/-- `create_network_data`. -/
def create_network_data (filtered : List Obs) : NetworkData :=
  let trade := trade2022Of filtered
  { nodes := networkNodesFrom trade 0 (dedupFirst (trade.map (·.area))),
    links := networkLinks trade }

/-- All five data outputs of `parse_enhanced.py` (`process_all`), as functions
of the raw CSV table. -/
structure EnhancedOutputs where
  timeseries : List TimeseriesRecord
  rankings : List ItemRanking
  tradeBalance : List TradeEntry
  summary : SummaryData
  network : NetworkData
deriving DecidableEq, Repr

/-- The full pipeline: `load_and_filter_data` followed by the five output
builders. -/
def enhancedOutputs (raw : List RawRow) : EnhancedOutputs :=
  { timeseries := create_country_timeseries (filtered_df raw) (kcal_df raw),
    rankings := create_production_rankings (filtered_df raw),
    tradeBalance := create_trade_balance (filtered_df raw),
    summary := create_aggregated_summaries (filtered_df raw),
    network := create_network_data (filtered_df raw) }

/-! ## extend_timeseries.py : extend_timeseries_with_feed_and_calories

The script loads the raw CSV unfiltered (no aggregate-area, year or element
filter), injects Feed and calorie values into the existing timeseries entries
(matched by (country, item) through a lookup dict built once — later rows
overwrite earlier writes, only the first year entry with a matching year is
updated), then appends newly-synthesized entries for feed-only items and for
"Grand Total" calories. -/

/-- Index of the entry a (country, item) key resolves to: the lookup dict is
built by `lookup[key] = entry` over the list, so the last entry with the key
wins. -/
def lastIdxOf (ts : List TimeseriesRecord) (c i : String) : Option Nat :=
  ((ts.enum.filter fun p => p.2.country == c && p.2.item == i).getLast?).map (·.1)

/-- Update the first year entry with the given year, setting one metric key
(`for year_data in ...: if year_data['year'] == year: ...; break`). -/
def setFirstYear (y : Int) (key : String) (v : ℚ) : List YearRec → List YearRec
  | [] => []
  | yr :: rest =>
    if yr.year == y then { yr with metrics := setKey yr.metrics key v } :: rest
    else yr :: setFirstYear y key v rest

/-- Apply one injection row to the entry its (country, item) key resolves to
(rows with a missing value are skipped). -/
def applyInjRow (key : String) (ts0 : List TimeseriesRecord)
    (acc : List TimeseriesRecord) (r : RawRow) : List TimeseriesRecord :=
  match r.value with
  | none => acc
  | some v =>
    match lastIdxOf ts0 r.area r.item with
    | none => acc
    | some idx => modifyIdx (fun e => { e with data := setFirstYear r.year key v e.data }) idx acc

/-- One injection pass (`Feed` rows with key `feed`, calorie rows with key
`food_supply_kcal`).  The lookup indices are computed against the original
list `ts`: the Python dict is built once, and the updates never change an
entry's (country, item) key, so the two are equivalent. -/
def injectPhase (key : String) (rows : List RawRow) (ts : List TimeseriesRecord) :
    List TimeseriesRecord :=
  rows.foldl (applyInjRow key ts) ts

/-- The year entries synthesized for a feed-only (item, country): the
placeholder dict `production = imports = domestic_supply = 0` plus the feed
value (lines 97-106); note no `exports` key is written. -/
def feedPlaceholderYearData (itemFeed : List RawRow) (country : String) : List YearRec :=
  (itemFeed.filter fun r => r.area == country).filterMap fun r =>
    r.value.map fun v =>
      YearRec.mk r.year
        [("production", 0), ("imports", 0), ("domestic_supply", 0), ("feed", v)]

/-- The synthesized entry of a feed-only (item, country), or `none` when all
its values are missing (lines 108-115). -/
def newFeedEntryFor (itemFeed : List RawRow) (item country : String) :
    Option TimeseriesRecord :=
  if (feedPlaceholderYearData itemFeed country).isEmpty then none
  else some { country := country, item := item, unit := "1000 t",
              data := sortBy (fun a b => decide (a.year ≤ b.year))
                (feedPlaceholderYearData itemFeed country) }

/-- The newly-synthesized entries for items that have Feed data but no
existing timeseries entry (lines 84-115). -/
def newFeedEntries (df : List RawRow) (ts : List TimeseriesRecord) : List TimeseriesRecord :=
  let feedData := df.filter fun r => r.element == "Feed"
  let newItems := (dedupFirst (feedData.map (·.item))).filter fun it =>
    !((ts.map (·.item)).contains it)
  newItems.flatMap fun item =>
    (dedupFirst ((feedData.filter fun r => r.item == item).map (·.area))).filterMap
      (newFeedEntryFor (feedData.filter fun r => r.item == item) item)

/-- The year entries of a "Grand Total" calorie country: placeholders as
above plus the `food_supply_kcal` value, and again no `exports` key
(lines 127-137). -/
def gtPlaceholderYearData (gtRows : List RawRow) (country : String) : List YearRec :=
  (gtRows.filter fun r => r.area == country).filterMap fun r =>
    r.value.map fun v =>
      YearRec.mk r.year
        [("production", 0), ("imports", 0), ("domestic_supply", 0), ("food_supply_kcal", v)]

/-- The synthesized "Grand Total" entry of one country (lines 139-146). -/
def gtEntryFor (gtRows : List RawRow) (country : String) : Option TimeseriesRecord :=
  if (gtPlaceholderYearData gtRows country).isEmpty then none
  else some { country := country, item := "Grand Total", unit := "kcal/capita/day",
              data := sortBy (fun a b => decide (a.year ≤ b.year))
                (gtPlaceholderYearData gtRows country) }

/-- The newly-synthesized "Grand Total" calorie entries (lines 117-146), built
from the raw table with no area filter. -/
def grandTotalEntries (df : List RawRow) : List TimeseriesRecord :=
  let gtRows := df.filter fun r =>
    r.element == kcalElementName && r.item == "Grand Total"
  (dedupFirst (gtRows.map (·.area))).filterMap (gtEntryFor gtRows)

/-- The existing entries after both injection passes. -/
def extendUpdatedPart (df : List RawRow) (ts : List TimeseriesRecord) :
    List TimeseriesRecord :=
  injectPhase "food_supply_kcal" (df.filter fun r => r.element == kcalElementName)
    (injectPhase "feed" (df.filter fun r => r.element == "Feed") ts)

/-- `extend_timeseries_with_feed_and_calories`: the updated existing entries
followed by the appended feed-only and Grand Total entries. -/
def extend_timeseries_with_feed_and_calories (df : List RawRow)
    (ts : List TimeseriesRecord) : List TimeseriesRecord :=
  extendUpdatedPart df ts ++ newFeedEntries df ts ++ grandTotalEntries df

/-! ## Concrete inputs used by the witnesses and counterexamples -/

/-- A source table with the Brazil / Soyabeans production row of the spec's
concrete scenario plus a calorie row for the same (country, item, year). -/
def brazilRaw : List RawRow :=
  [{ area := "Brazil", item := "Soyabeans", element := "Production",
     year := 2022, unit := "1000 t", value := some 120 },
   { area := "Brazil", item := "Soyabeans", element := kcalElementName,
     year := 2022, unit := "kcal/capita/day", value := some 50 }]

/-- A source table whose calorie observation has a missing (NaN) value, next
to a production observation of the same (country, item, year). -/
def nanKcalRaw : List RawRow :=
  [{ area := "Brazil", item := "Soyabeans", element := "Production",
     year := 2022, unit := "1000 t", value := some 5 },
   { area := "Brazil", item := "Soyabeans", element := kcalElementName,
     year := 2022, unit := "kcal/capita/day", value := none }]

/-- The source table of the spec's "World / Wheat and products" scenario: the
calorie row exactly as stated, plus a production row for the same pair. -/
def worldWheatRaw : List RawRow :=
  [{ area := "World", item := "Wheat and products", element := "Production",
     year := 2022, unit := "1000 t", value := some 100 },
   { area := "World", item := "Wheat and products", element := kcalElementName,
     year := 2022, unit := "kcal/capita/day", value := some 310.5 }]

/-- The same scenario with a non-aggregate country in place of "World". -/
def franceWheatRaw : List RawRow :=
  [{ area := "France", item := "Wheat and products", element := "Production",
     year := 2022, unit := "1000 t", value := some 100 },
   { area := "France", item := "Wheat and products", element := kcalElementName,
     year := 2022, unit := "kcal/capita/day", value := some 310.5 }]

/-- Two Production rows for the same (country, item, year, element) with
different values: a duplicate-key table. -/
def dupRaw : List RawRow :=
  [{ area := "Brazil", item := "Soyabeans", element := "Production",
     year := 2022, unit := "1000 t", value := some 100 },
   { area := "Brazil", item := "Soyabeans", element := "Production",
     year := 2022, unit := "1000 t", value := some 120 }]

/-- A raw table for `extend_timeseries.py` holding a single World "Grand
Total" calorie row: World is in the aggregate denylist. -/
def worldGrandTotalDf : List RawRow :=
  [{ area := "World", item := "Grand Total", element := kcalElementName,
     year := 2021, unit := "kcal/capita/day", value := some 2900 }]

/-- A raw table for `extend_timeseries.py` holding a single Feed row with a
year outside [2010, 2022]. -/
def oldFeedDf : List RawRow :=
  [{ area := "Testland", item := "Newcrop", element := "Feed",
     year := 1999, unit := "1000 t", value := some 5 }]

/-- A raw table for `extend_timeseries.py` with one Feed row for an item not
in the existing timeseries. -/
def synthFeedDf : List RawRow :=
  [{ area := "Atlantis", item := "Magicfruit", element := "Feed",
     year := 2015, unit := "1000 t", value := some 7 }]

/-- One import/export pair for the trade-balance witness. -/
def tradeRaw : List RawRow :=
  [{ area := "Brazil", item := "Soyabeans", element := "Export quantity",
     year := 2022, unit := "1000 t", value := some 90 },
   { area := "Brazil", item := "Soyabeans", element := "Import quantity",
     year := 2022, unit := "1000 t", value := some 3 }]

/-- An import/export row of item `i k` for country pairs used to build the
network counterexample table. -/
def tradePairRows (itemName : String) (ex im : String) (v : ℚ) : List RawRow :=
  [{ area := ex, item := itemName, element := "Export quantity",
     year := 2022, unit := "1000 t", value := some v },
   { area := im, item := itemName, element := "Import quantity",
     year := 2022, unit := "1000 t", value := some v }]

/-- Eleven items in row order: items "A" .. "J" each with one exporter and
one importer of volume 200, then item "K" with volume 10000.  "K" has by far
the highest total trade volume but is not among the first ten distinct
items. -/
def networkCexRaw : List RawRow :=
  tradePairRows "A" "P" "Q" 200 ++ tradePairRows "B" "P" "Q" 200 ++
  tradePairRows "C" "P" "Q" 200 ++ tradePairRows "D" "P" "Q" 200 ++
  tradePairRows "E" "P" "Q" 200 ++ tradePairRows "F" "P" "Q" 200 ++
  tradePairRows "G" "P" "Q" 200 ++ tradePairRows "H" "P" "Q" 200 ++
  tradePairRows "I" "P" "Q" 200 ++ tradePairRows "J" "P" "Q" 200 ++
  tradePairRows "K" "P" "Q" 10000

/-- Total 2022 trade volume of an item in the significant-trade table, the
spec's notion of item volume ("ten highest-volume items").  This definition
follows the spec's words, for comparison with `linkItems`, which follows the
code. -/
def specItemVolume (filtered : List Obs) (itemName : String) : ℚ :=
  sumQ (((trade2022Of filtered).filter fun r => r.item == itemName).map (·.value))

/-! ## Frame relation for the extend script (used for claim C8) -/

/-- One year entry preserved up to the metric keys in `ks`: same year, and
every key outside `ks` has an unchanged binding (in particular a key absent
before stays absent — no zero-filling). -/
def PreservedYear (ks : List String) (yr yr2 : YearRec) : Prop :=
  yr2.year = yr.year ∧ ∀ k, ¬ k ∈ ks → getKey yr2.metrics k = getKey yr.metrics k

/-- One timeseries entry preserved up to the metric keys in `ks`. -/
def PreservedEntry (ks : List String) (e e2 : TimeseriesRecord) : Prop :=
  e2.country = e.country ∧ e2.item = e.item ∧ e2.unit = e.unit ∧
    List.Forall₂ (PreservedYear ks) e.data e2.data

/-- A timeseries list preserved entrywise up to the metric keys in `ks`. -/
def Preserved (ks : List String) (ts ts2 : List TimeseriesRecord) : Prop :=
  List.Forall₂ (PreservedEntry ks) ts ts2

/-- The observation form of the Brazil production row of `brazilRaw`. -/
def brazilProdObs : Obs :=
  { area := "Brazil", item := "Soyabeans", element := "Production",
    year := 2022, unit := "1000 t", value := 120 }

/-- The observation form of the Brazil calorie row of `brazilRaw`. -/
def brazilKcalObs : Obs :=
  { area := "Brazil", item := "Soyabeans", element := kcalElementName,
    year := 2022, unit := "kcal/capita/day", value := 50 }

/-! ## Helper lemmas about the list combinators -/

theorem mem_dedupFirstAux {α : Type} [DecidableEq α] (seen : List α) (l : List α) (a : α) :
    a ∈ dedupFirstAux seen l ↔ a ∈ l ∧ a ∉ seen := by
  induction l generalizing seen with
  | nil => simp [dedupFirstAux]
  | cons b rest ih =>
    by_cases hb : b ∈ seen
    · rw [dedupFirstAux, if_pos hb, ih]
      constructor
      · rintro ⟨h1, h2⟩
        exact ⟨List.mem_cons_of_mem _ h1, h2⟩
      · rintro ⟨h1, h2⟩
        rcases List.mem_cons.mp h1 with h | h
        · exact absurd (h ▸ hb) h2
        · exact ⟨h, h2⟩
    · rw [dedupFirstAux, if_neg hb]
      simp only [List.mem_cons, ih]
      constructor
      · rintro (h | ⟨h1, h2⟩)
        · exact ⟨Or.inl h, h ▸ hb⟩
        · exact ⟨Or.inr h1, fun hs => h2 (Or.inr hs)⟩
      · rintro ⟨h1 | h1, h2⟩
        · exact Or.inl h1
        · by_cases hab : a = b
          · exact Or.inl hab
          · exact Or.inr ⟨h1, by simp [List.mem_cons, hab, h2]⟩

theorem mem_dedupFirst {α : Type} [DecidableEq α] (l : List α) (a : α) :
    a ∈ dedupFirst l ↔ a ∈ l := by
  simp [dedupFirst, mem_dedupFirstAux]

theorem mem_insertBy {α : Type} (le : α → α → Bool) (x a : α) (l : List α) :
    a ∈ insertBy le x l ↔ a = x ∨ a ∈ l := by
  induction l with
  | nil => simp [insertBy]
  | cons b rest ih =>
    by_cases h : le x b
    · rw [insertBy, if_pos h]
      simp [List.mem_cons]
    · rw [insertBy, if_neg h]
      simp only [List.mem_cons, ih]
      tauto

theorem mem_sortBy {α : Type} (le : α → α → Bool) (l : List α) (a : α) :
    a ∈ sortBy le l ↔ a ∈ l := by
  induction l with
  | nil => simp [sortBy]
  | cons b rest ih =>
    show a ∈ insertBy le b (sortBy le rest) ↔ _
    rw [mem_insertBy, List.mem_cons, ih]

theorem getKey_setKey {κ : Type} [DecidableEq κ] (m : List (κ × ℚ)) (k k' : κ) (v : ℚ) :
    getKey (setKey m k v) k' = if k = k' then some v else getKey m k' := by
  induction m with
  | nil => by_cases h : k = k' <;> simp [setKey, getKey, h]
  | cons kv rest ih =>
    obtain ⟨k0, v0⟩ := kv
    simp only [setKey]
    by_cases h0 : k0 = k
    · subst h0
      rw [if_pos rfl]
      by_cases h : k0 = k'
      · subst h
        simp [getKey]
      · simp [getKey, h]
    · rw [if_neg h0]
      by_cases h1 : k0 = k'
      · subst h1
        have hk : ¬ k = k0 := fun hh => h0 hh.symm
        simp [getKey, hk]
      · simp [getKey, h1, ih]

theorem getKey_foldl_setKey {α κ : Type} [DecidableEq κ] (f : α → κ) (g : α → ℚ)
    (l : List α) (m : List (κ × ℚ)) (k : κ) :
    getKey (l.foldl (fun acc r => setKey acc (f r) (g r)) m) k =
      ((l.reverse.find? fun r => decide (f r = k)).map g).or (getKey m k) := by
  induction l generalizing m with
  | nil => simp
  | cons a l ih =>
    rw [List.foldl_cons, ih, List.reverse_cons, List.find?_append]
    rcases hf : List.find? (fun r => decide (f r = k)) l.reverse with _ | r
    · rw [getKey_setKey]
      by_cases h : f a = k
      · simp [List.find?_cons, h]
      · simp [List.find?_cons, h]
    · simp [Option.or]

theorem head?_filter {α : Type} (p : α → Bool) (l : List α) :
    (l.filter p).head? = l.find? p := by
  induction l with
  | nil => rfl
  | cons a l ih =>
    by_cases h : p a <;> simp [List.filter_cons, List.find?_cons, h, ih]

theorem find?_filter_comm {α : Type} (p q : α → Bool) (l : List α) :
    (l.filter p).find? q = l.find? fun a => p a && q a := by
  induction l with
  | nil => rfl
  | cons a l ih =>
    by_cases hp : p a
    · by_cases hq : q a <;> simp [List.filter_cons, List.find?_cons, hp, hq, ih]
    · simp [List.filter_cons, List.find?_cons, hp, ih]

theorem getLast?_filter {α : Type} (p : α → Bool) (l : List α) :
    (l.filter p).getLast? = l.reverse.find? p := by
  rw [List.getLast?_eq_head?_reverse, ← List.filter_reverse, head?_filter]

theorem find?_congr_pred {α : Type} {p q : α → Bool} {l : List α}
    (h : ∀ a ∈ l, p a = q a) : l.find? p = l.find? q := by
  induction l with
  | nil => rfl
  | cons a l ih =>
    have ha := h a (List.mem_cons_self a l)
    by_cases hp : p a
    · rw [List.find?_cons_of_pos _ hp, List.find?_cons_of_pos _ (ha ▸ hp)]
    · have hq : ¬ (q a = true) := by rw [← ha]; exact hp
      rw [List.find?_cons_of_neg _ (by simpa using hp),
        List.find?_cons_of_neg _ (by simpa using hq)]
      exact ih fun x hx => h x (List.mem_cons_of_mem _ hx)

/-! ## Membership lemmas for the filtered tables -/

/-- The raw row an observation came from. -/
def obsToRaw (o : Obs) : RawRow :=
  { area := o.area, item := o.item, element := o.element,
    year := o.year, unit := o.unit, value := some o.value }

@[simp] theorem obsToRaw_area (o : Obs) : (obsToRaw o).area = o.area := rfl

@[simp] theorem obsToRaw_item (o : Obs) : (obsToRaw o).item = o.item := rfl

@[simp] theorem obsToRaw_element (o : Obs) : (obsToRaw o).element = o.element := rfl

@[simp] theorem obsToRaw_year (o : Obs) : (obsToRaw o).year = o.year := rfl

@[simp] theorem obsToRaw_value (o : Obs) : (obsToRaw o).value = some o.value := rfl

theorem mem_dropna {l : List RawRow} {o : Obs} : o ∈ dropna l ↔ obsToRaw o ∈ l := by
  simp only [dropna, List.mem_filterMap]
  constructor
  · rintro ⟨r, hr, he⟩
    obtain ⟨a, i, e, y, u, v⟩ := r
    cases v with
    | none => simp at he
    | some v0 =>
      have : Obs.mk a i e y u v0 = o := by simpa using he
      subst this
      simpa [obsToRaw] using hr
  · intro hr
    refine ⟨obsToRaw o, hr, ?_⟩
    cases o
    simp [obsToRaw]

theorem mem_filtered_df {raw : List RawRow} {o : Obs} :
    o ∈ filtered_df raw ↔
      obsToRaw o ∈ raw ∧ AGGREGATE_AREAS.contains o.area = false ∧
        filteredRowPred (obsToRaw o) = true := by
  simp only [filtered_df, removeAggregateAreas, mem_dropna, List.mem_filter,
    obsToRaw_area, Bool.not_eq_true']
  tauto

theorem mem_kcal_df {raw : List RawRow} {o : Obs} :
    o ∈ kcal_df raw ↔
      obsToRaw o ∈ raw ∧ AGGREGATE_AREAS.contains o.area = false ∧
        kcalRowPred (obsToRaw o) = true := by
  simp only [kcal_df, removeAggregateAreas, mem_dropna, List.mem_filter,
    obsToRaw_area, Bool.not_eq_true']
  tauto

theorem filteredRowPred_iff {r : RawRow} :
    filteredRowPred r = true ↔
      2010 ≤ r.year ∧ r.year ≤ 2022 ∧ relevant_elements.contains r.element = true ∧
        containsChars "alcohol".data (lowerChars r.item) = false ∧
        containsChars "non-food".data (lowerChars r.item) = false := by
  simp [filteredRowPred, Bool.and_eq_true, decide_eq_true_eq, Bool.not_eq_true', and_assoc]

theorem kcalRowPred_iff {r : RawRow} :
    kcalRowPred r = true ↔
      2010 ≤ r.year ∧ r.year ≤ 2022 ∧ r.element = kcalElementName := by
  simp [kcalRowPred, Bool.and_eq_true, decide_eq_true_eq, and_assoc]

/-! ## Structure lemmas for create_country_timeseries -/

theorem mem_keys_iff {filtered : List Obs} {p : String × String} :
    p ∈ sortBy pairLe (dedupFirst (filtered.map fun r => (r.area, r.item))) ↔
      ∃ r ∈ filtered, r.area = p.1 ∧ r.item = p.2 := by
  rw [mem_sortBy, mem_dedupFirst, List.mem_map]
  constructor
  · rintro ⟨r, hr, he⟩
    exact ⟨r, hr, congrArg Prod.fst he, congrArg Prod.snd he⟩
  · rintro ⟨r, hr, h1, h2⟩
    obtain ⟨c, i⟩ := p
    exact ⟨r, hr, by rw [h1, h2]⟩

theorem mem_yearsOf_iff {group : List Obs} {y : Int} :
    y ∈ yearsOf group ↔ ∃ r ∈ group, r.year = y := by
  rw [yearsOf, mem_sortBy, mem_dedupFirst, List.mem_map]

theorem recordFor_mem {filtered kcal : List Obs} {c i : String}
    (h : ∃ r ∈ filtered, r.area = c ∧ r.item = i) :
    recordFor filtered kcal c i ∈ create_country_timeseries filtered kcal := by
  unfold create_country_timeseries
  exact List.mem_map.mpr ⟨(c, i), mem_keys_iff.mpr h, rfl⟩

theorem mem_create_country_timeseries {filtered kcal : List Obs} {rec : TimeseriesRecord} :
    rec ∈ create_country_timeseries filtered kcal ↔
      ∃ p : String × String, (∃ r ∈ filtered, r.area = p.1 ∧ r.item = p.2) ∧
        rec = recordFor filtered kcal p.1 p.2 := by
  unfold create_country_timeseries
  rw [List.mem_map]
  constructor
  · rintro ⟨p, hp, he⟩
    exact ⟨p, mem_keys_iff.mp hp, he.symm⟩
  · rintro ⟨p, hp, he⟩
    exact ⟨p, mem_keys_iff.mpr hp, he.symm⟩

@[simp] theorem recordFor_country (filtered kcal : List Obs) (c i : String) :
    (recordFor filtered kcal c i).country = c := rfl

@[simp] theorem recordFor_item (filtered kcal : List Obs) (c i : String) :
    (recordFor filtered kcal c i).item = i := rfl

theorem recordFor_data (filtered kcal : List Obs) (c i : String) :
    (recordFor filtered kcal c i).data =
      (yearsOf (groupOf filtered c i)).map
        (yearRecordFor (groupOf filtered c i) (kcal_lookup kcal) c i) := rfl

theorem yearRecordFor_mem_data {filtered kcal : List Obs} {c i : String} {y : Int}
    (h : ∃ r ∈ groupOf filtered c i, r.year = y) :
    yearRecordFor (groupOf filtered c i) (kcal_lookup kcal) c i y ∈
      (recordFor filtered kcal c i).data := by
  rw [recordFor_data]
  exact List.mem_map.mpr ⟨y, mem_yearsOf_iff.mpr h, rfl⟩

theorem mem_recordFor_data {filtered kcal : List Obs} {c i : String} {yr : YearRec} :
    yr ∈ (recordFor filtered kcal c i).data ↔
      ∃ y, (∃ r ∈ groupOf filtered c i, r.year = y) ∧
        yr = yearRecordFor (groupOf filtered c i) (kcal_lookup kcal) c i y := by
  rw [recordFor_data, List.mem_map]
  constructor
  · rintro ⟨y, hy, he⟩
    exact ⟨y, mem_yearsOf_iff.mp hy, he.symm⟩
  · rintro ⟨y, hy, he⟩
    exact ⟨y, mem_yearsOf_iff.mpr hy, he.symm⟩

theorem yearRecordFor_year (group : List Obs) (kl : List ((String × String × Int) × ℚ))
    (c i : String) (y : Int) : (yearRecordFor group kl c i y).year = y := by
  unfold yearRecordFor
  cases hk : getKey kl (c, i, y) <;> simp [hk]

theorem mem_groupOf {filtered : List Obs} {c i : String} {r : Obs} :
    r ∈ groupOf filtered c i ↔ r ∈ filtered ∧ r.area = c ∧ r.item = i := by
  simp [groupOf, List.mem_filter, Bool.and_eq_true]

theorem getKey_buildYearMetrics (rows : List Obs) (k : String) :
    getKey (buildYearMetrics rows) k =
      (rows.reverse.find? fun r => decide (normalize_element_name r.element = k)).map scaleValue := by
  have h := getKey_foldl_setKey (fun r : Obs => normalize_element_name r.element)
    scaleValue rows [] k
  simpa [buildYearMetrics, getKey] using h

theorem getKey_kcal_lookup (rows : List Obs) (key : String × String × Int) :
    getKey (kcal_lookup rows) key =
      (rows.reverse.find? fun r => decide ((r.area, r.item, r.year) = key)).map (·.value) := by
  have h := getKey_foldl_setKey (fun r : Obs => (r.area, r.item, r.year))
    (fun r : Obs => r.value) rows [] key
  simpa [kcal_lookup, getKey] using h

theorem kcal_lookup_isSome_iff (rows : List Obs) (key : String × String × Int) :
    (getKey (kcal_lookup rows) key).isSome = true ↔
      ∃ r ∈ rows, (r.area, r.item, r.year) = key := by
  rw [getKey_kcal_lookup]
  simp [List.find?_isSome, List.mem_reverse]

theorem yearRecordFor_metrics (group : List Obs) (kl : List ((String × String × Int) × ℚ))
    (c i : String) (y : Int) :
    (yearRecordFor group kl c i y).metrics =
      match getKey kl (c, i, y) with
      | some v => setKey (buildYearMetrics (group.filter fun r => r.year == y))
          "food_supply_kcal" v
      | none => buildYearMetrics (group.filter fun r => r.year == y) := by
  unfold yearRecordFor
  cases getKey kl (c, i, y) <;> rfl

theorem getKey_yearRecordFor_of_ne (group : List Obs) (kl : List ((String × String × Int) × ℚ))
    (c i : String) (y : Int) (k : String) (hk : ¬ k = "food_supply_kcal") :
    getKey (yearRecordFor group kl c i y).metrics k =
      ((group.filter fun r => r.year == y).reverse.find?
        (fun r => decide (normalize_element_name r.element = k))).map scaleValue := by
  rw [yearRecordFor_metrics]
  cases getKey kl (c, i, y) with
  | none => exact getKey_buildYearMetrics _ _
  | some v =>
    rw [getKey_setKey, if_neg (fun h => hk h.symm), getKey_buildYearMetrics]

theorem getKey_yearRecordFor_kcal (group : List Obs) (kl : List ((String × String × Int) × ℚ))
    (c i : String) (y : Int)
    (hgroup : ∀ r ∈ group, ¬ normalize_element_name r.element = "food_supply_kcal") :
    getKey (yearRecordFor group kl c i y).metrics "food_supply_kcal" =
      getKey kl (c, i, y) := by
  rw [yearRecordFor_metrics]
  have hnone : ((group.filter fun r => r.year == y).reverse.find?
      (fun r => decide (normalize_element_name r.element = "food_supply_kcal"))) = none := by
    rw [List.find?_eq_none]
    intro r hr
    have : r ∈ group := List.mem_of_mem_filter (List.mem_reverse.mp hr)
    simpa using hgroup r this
  cases hkl : getKey kl (c, i, y) with
  | none => rw [getKey_buildYearMetrics, hnone]; rfl
  | some v => rw [getKey_setKey, if_pos rfl]

theorem mem_relevant_elements_of_filtered {raw : List RawRow} {o : Obs}
    (ho : o ∈ filtered_df raw) : o.element ∈ relevant_elements := by
  have h := (mem_filtered_df.mp ho).2.2
  rw [filteredRowPred_iff] at h
  simpa using h.2.2.1

theorem normalize_ne_kcal {e : String} (he : e ∈ relevant_elements) :
    ¬ normalize_element_name e = "food_supply_kcal" := by
  simp only [relevant_elements, List.mem_cons, List.not_mem_nil, or_false] at he
  rcases he with rfl | rfl | rfl | rfl | rfl | rfl | rfl | rfl | rfl | rfl <;> decide

theorem normalize_injOn {e1 e2 : String} (h1 : e1 ∈ relevant_elements)
    (h2 : e2 ∈ relevant_elements)
    (heq : normalize_element_name e1 = normalize_element_name e2) : e1 = e2 := by
  simp only [relevant_elements, List.mem_cons, List.not_mem_nil, or_false] at h1 h2
  rcases h1 with rfl | rfl | rfl | rfl | rfl | rfl | rfl | rfl | rfl | rfl <;>
    rcases h2 with rfl | rfl | rfl | rfl | rfl | rfl | rfl | rfl | rfl | rfl <;>
      revert heq <;> decide

theorem find_norm_eq_getLast (filtered : List Obs) (c i : String) (y : Int) (e : String)
    (he : e ∈ relevant_elements)
    (hall : ∀ o ∈ filtered, o.element ∈ relevant_elements) :
    ((groupOf filtered c i).filter fun r => r.year == y).reverse.find?
        (fun r => decide (normalize_element_name r.element = normalize_element_name e)) =
      (filtered.filter fun r =>
        r.area == c && r.item == i && r.year == y && r.element == e).getLast? := by
  rw [getLast?_filter]
  unfold groupOf
  rw [← List.filter_reverse, ← List.filter_reverse, find?_filter_comm, find?_filter_comm]
  apply find?_congr_pred
  intro a ha
  have hae : a.element ∈ relevant_elements := hall a (List.mem_reverse.mp ha)
  by_cases hel : a.element = e
  · simp [hel, Bool.and_assoc]
  · have hne : ¬ normalize_element_name a.element = normalize_element_name e :=
      fun hn => hel (normalize_injOn hae he hn)
    simp [hel, hne, Bool.and_assoc]

theorem find_norm_eq_find_reverse (filtered : List Obs) (c i : String) (y : Int) (e : String)
    (he : e ∈ relevant_elements)
    (hall : ∀ o ∈ filtered, o.element ∈ relevant_elements) :
    ((groupOf filtered c i).filter fun r => r.year == y).reverse.find?
        (fun r => decide (normalize_element_name r.element = normalize_element_name e)) =
      filtered.reverse.find?
        (fun r => r.area == c && r.item == i && r.year == y && r.element == e) := by
  rw [find_norm_eq_getLast _ _ _ _ _ he hall, getLast?_filter]

/-! ## Claim C6 -/

/-- C6 counterexample: the aggregate-region denylist `AGGREGATE_AREAS` has 30
distinct entries, not 25 as the claim states. -/
theorem c6_counterexample_thirty_entries :
    AGGREGATE_AREAS.Nodup ∧ AGGREGATE_AREAS.length = 30 ∧ ¬ AGGREGATE_AREAS.length = 25 :=
  ⟨by decide, rfl, by decide⟩

/-- C6 (amended): the area filter removes exactly the rows whose Area is a
member of the fixed aggregate-region set, which has 30 entries (not 25), by
exact case-sensitive string match; "South Africa" contains the denylisted
name "Africa" as a substring but is not itself a member, so such rows are
retained. -/
theorem c6_area_filter_exact_match :
    (∀ (raw : List RawRow) (r : RawRow),
        r ∈ removeAggregateAreas raw ↔ r ∈ raw ∧ ¬ r.area ∈ AGGREGATE_AREAS)
      ∧ AGGREGATE_AREAS.length = 30 ∧ AGGREGATE_AREAS.Nodup
      ∧ "Africa" ∈ AGGREGATE_AREAS
      ∧ ¬ "South Africa" ∈ AGGREGATE_AREAS
      ∧ containsChars "Africa".data "South Africa".data = true := by
  refine ⟨fun raw r => ?_, rfl, by decide, by decide, by decide, by decide⟩
  simp [removeAggregateAreas, List.mem_filter]

/-! ## Claim C9 -/

/-- C9: when several filtered observations share the same (country, item,
year, element), the year record stores, under the element's normalized key,
the rescaled value of the last such row in iteration order — later rows
overwrite earlier ones and are never summed. -/
theorem c9_duplicate_rows_last_write_wins (raw : List RawRow) (c i : String) (y : Int)
    (e : String)
    (hne : (filtered_df raw).filter
      (fun r => r.area == c && r.item == i && r.year == y && r.element == e) ≠ []) :
    ∃ rec ∈ create_country_timeseries (filtered_df raw) (kcal_df raw),
      rec.country = c ∧ rec.item = i ∧
      ∃ yr ∈ rec.data, yr.year = y ∧
        getKey yr.metrics (normalize_element_name e) =
          ((filtered_df raw).filter
            (fun r => r.area == c && r.item == i && r.year == y && r.element == e)).getLast?.map
            scaleValue := by
  obtain ⟨r0, hr0⟩ := List.exists_mem_of_ne_nil _ hne
  rw [List.mem_filter] at hr0
  obtain ⟨hr0f, hr0p⟩ := hr0
  simp only [Bool.and_eq_true, beq_iff_eq] at hr0p
  obtain ⟨⟨⟨ha, hi⟩, hy⟩, hel⟩ := hr0p
  have hrel : e ∈ relevant_elements := hel ▸ mem_relevant_elements_of_filtered hr0f
  refine ⟨recordFor (filtered_df raw) (kcal_df raw) c i,
    recordFor_mem ⟨r0, hr0f, ha, hi⟩, rfl, rfl,
    yearRecordFor (groupOf (filtered_df raw) c i) (kcal_lookup (kcal_df raw)) c i y,
    yearRecordFor_mem_data ⟨r0, mem_groupOf.mpr ⟨hr0f, ha, hi⟩, hy⟩,
    yearRecordFor_year _ _ _ _ _, ?_⟩
  rw [getKey_yearRecordFor_of_ne _ _ _ _ _ _ (normalize_ne_kcal hrel),
    find_norm_eq_getLast _ _ _ _ _ hrel (fun o ho => mem_relevant_elements_of_filtered ho)]

/-- C9 witness: on a table with two Production rows (values 100 and 120) for
(Brazil, Soyabeans, 2022), the stored production value is that of the last
row rescaled (120000), not the sum. -/
theorem c9_witness :
    (∃ rec ∈ create_country_timeseries (filtered_df dupRaw) (kcal_df dupRaw),
      rec.country = "Brazil" ∧ rec.item = "Soyabeans" ∧
      ∃ yr ∈ rec.data, yr.year = 2022 ∧
        getKey yr.metrics (normalize_element_name "Production") =
          ((filtered_df dupRaw).filter
            (fun r => r.area == "Brazil" && r.item == "Soyabeans" && r.year == 2022 &&
              r.element == "Production")).getLast?.map scaleValue)
    ∧ ((filtered_df dupRaw).filter
        (fun r => r.area == "Brazil" && r.item == "Soyabeans" && r.year == 2022 &&
          r.element == "Production")).getLast?.map scaleValue = some 120000 :=
  ⟨c9_duplicate_rows_last_write_wins dupRaw "Brazil" "Soyabeans" 2022 "Production" (by decide),
   by decide⟩

/-! ## Claim C1 -/

/-- C1: a filtered observation that is the unique one of its (country, item,
year, element) has its value stored under the normalized element key,
multiplied by 1000 exactly when the element is a mass metric (Production,
Import/Export quantity, Domestic supply quantity, Feed, Processing) and
unscaled otherwise (protein/fat metrics); and a unique calorie observation is
injected as `food_supply_kcal` with its raw unscaled value. -/
theorem c1_mass_rescaled_kcal_unscaled :
    (∀ (raw : List RawRow) (r : Obs), r ∈ filtered_df raw →
      (∀ r2 ∈ filtered_df raw, r2.area = r.area → r2.item = r.item → r2.year = r.year →
        r2.element = r.element → r2 = r) →
      ∃ rec ∈ create_country_timeseries (filtered_df raw) (kcal_df raw),
        rec.country = r.area ∧ rec.item = r.item ∧
        ∃ yr ∈ rec.data, yr.year = r.year ∧
          getKey yr.metrics (normalize_element_name r.element) =
            some (if mass_elements_kt.contains r.element then r.value * 1000 else r.value))
    ∧ (∀ (raw : List RawRow) (s : Obs), s ∈ kcal_df raw →
      (∀ s2 ∈ kcal_df raw, s2.area = s.area → s2.item = s.item → s2.year = s.year → s2 = s) →
      (∃ r0 ∈ filtered_df raw, r0.area = s.area ∧ r0.item = s.item ∧ r0.year = s.year) →
      ∃ rec ∈ create_country_timeseries (filtered_df raw) (kcal_df raw),
        rec.country = s.area ∧ rec.item = s.item ∧
        ∃ yr ∈ rec.data, yr.year = s.year ∧
          getKey yr.metrics "food_supply_kcal" = some s.value) := by
  constructor
  · intro raw r hr huniq
    have hrel : r.element ∈ relevant_elements := mem_relevant_elements_of_filtered hr
    refine ⟨recordFor (filtered_df raw) (kcal_df raw) r.area r.item,
      recordFor_mem ⟨r, hr, rfl, rfl⟩, rfl, rfl,
      yearRecordFor (groupOf (filtered_df raw) r.area r.item) (kcal_lookup (kcal_df raw))
        r.area r.item r.year,
      yearRecordFor_mem_data ⟨r, mem_groupOf.mpr ⟨hr, rfl, rfl⟩, rfl⟩,
      yearRecordFor_year _ _ _ _ _, ?_⟩
    rw [getKey_yearRecordFor_of_ne _ _ _ _ _ _ (normalize_ne_kcal hrel),
      find_norm_eq_find_reverse _ _ _ _ _ hrel
        (fun o ho => mem_relevant_elements_of_filtered ho)]
    rcases hx : (filtered_df raw).reverse.find?
        (fun x => x.area == r.area && x.item == r.item && x.year == r.year &&
          x.element == r.element) with _ | x
    · exfalso
      rw [List.find?_eq_none] at hx
      exact hx r (List.mem_reverse.mpr hr) (by simp)
    · have hpx := List.find?_some hx
      have hmx : x ∈ filtered_df raw := List.mem_reverse.mp (List.mem_of_find?_eq_some hx)
      simp only [Bool.and_eq_true, beq_iff_eq] at hpx
      obtain ⟨⟨⟨hxa, hxi⟩, hxy⟩, hxe⟩ := hpx
      have : x = r := huniq x hmx hxa hxi hxy hxe
      subst this
      rw [hx]
      simp [scaleValue]
  · intro raw s hs huniq hex
    obtain ⟨r0, hr0, ha0, hi0, hy0⟩ := hex
    have hgrp : ∀ r ∈ groupOf (filtered_df raw) s.area s.item,
        ¬ normalize_element_name r.element = "food_supply_kcal" := fun r hrg =>
      normalize_ne_kcal (mem_relevant_elements_of_filtered (mem_groupOf.mp hrg).1)
    refine ⟨recordFor (filtered_df raw) (kcal_df raw) s.area s.item,
      recordFor_mem ⟨r0, hr0, ha0, hi0⟩, rfl, rfl,
      yearRecordFor (groupOf (filtered_df raw) s.area s.item) (kcal_lookup (kcal_df raw))
        s.area s.item s.year,
      yearRecordFor_mem_data ⟨r0, mem_groupOf.mpr ⟨hr0, ha0, hi0⟩, hy0⟩,
      yearRecordFor_year _ _ _ _ _, ?_⟩
    rw [getKey_yearRecordFor_kcal _ _ _ _ _ hgrp, getKey_kcal_lookup]
    rcases hx : (kcal_df raw).reverse.find?
        (fun x => decide ((x.area, x.item, x.year) = (s.area, s.item, s.year))) with _ | x
    · exfalso
      rw [List.find?_eq_none] at hx
      exact hx s (List.mem_reverse.mpr hs) (by simp)
    · have hpx := List.find?_some hx
      have hmx : x ∈ kcal_df raw := List.mem_reverse.mp (List.mem_of_find?_eq_some hx)
      simp only [decide_eq_true_eq, Prod.mk.injEq] at hpx
      have : x = s := huniq x hmx hpx.1 hpx.2.1 hpx.2.2
      subst this
      rw [hx]
      rfl

/-- C1 witness: the spec's concrete scenario — a Brazil / Soyabeans /
Production / 2022 row with value 120 yields a year record with production
120000, and the calorie row of the same table is injected unscaled (50). -/
theorem c1_witness :
    (∃ rec ∈ create_country_timeseries (filtered_df brazilRaw) (kcal_df brazilRaw),
      rec.country = "Brazil" ∧ rec.item = "Soyabeans" ∧
      ∃ yr ∈ rec.data, yr.year = 2022 ∧
        getKey yr.metrics "production" = some 120000)
    ∧ (∃ rec ∈ create_country_timeseries (filtered_df brazilRaw) (kcal_df brazilRaw),
      rec.country = "Brazil" ∧ rec.item = "Soyabeans" ∧
      ∃ yr ∈ rec.data, yr.year = 2022 ∧
        getKey yr.metrics "food_supply_kcal" = some 50) :=
  ⟨c1_mass_rescaled_kcal_unscaled.1 brazilRaw brazilProdObs (by decide) (by decide),
   c1_mass_rescaled_kcal_unscaled.2 brazilRaw brazilKcalObs (by decide) (by decide)
     ⟨brazilProdObs, by decide, rfl, rfl, rfl⟩⟩

theorem filter_eq_nil_of {α : Type} {p : α → Bool} {l : List α}
    (h : ∀ a ∈ l, ¬ p a = true) : l.filter p = [] := by
  induction l with
  | nil => rfl
  | cons a l ih =>
    rw [List.filter_cons, if_neg (by simpa using h a (List.mem_cons_self a l))]
    exact ih fun x hx => h x (List.mem_cons_of_mem _ hx)

/-! ## Claim C2 -/

/-- C2 (amended): a year record of the assembler's output contains
`food_supply_kcal` if and only if the source table has a calorie observation
with a non-missing numeric Value for that exact (country, item, year). -/
theorem c2_kcal_injection_iff (raw : List RawRow) (rec : TimeseriesRecord) (yr : YearRec)
    (hrec : rec ∈ create_country_timeseries (filtered_df raw) (kcal_df raw))
    (hyr : yr ∈ rec.data) :
    (getKey yr.metrics "food_supply_kcal").isSome = true ↔
      ∃ rr ∈ raw, rr.area = rec.country ∧ rr.item = rec.item ∧ rr.year = yr.year ∧
        rr.element = kcalElementName ∧ rr.value.isSome = true := by
  obtain ⟨p, ⟨r1, hr1, ha1, hi1⟩, rfl⟩ := mem_create_country_timeseries.mp hrec
  obtain ⟨c, i⟩ := p
  obtain ⟨y, ⟨r2, hr2, hy2⟩, rfl⟩ := mem_recordFor_data.mp hyr
  have hr2f : r2 ∈ filtered_df raw := (mem_groupOf.mp hr2).1
  have hgrp : ∀ r ∈ groupOf (filtered_df raw) c i,
      ¬ normalize_element_name r.element = "food_supply_kcal" := fun r hrg =>
    normalize_ne_kcal (mem_relevant_elements_of_filtered (mem_groupOf.mp hrg).1)
  rw [recordFor_country, recordFor_item, yearRecordFor_year,
    getKey_yearRecordFor_kcal _ _ _ _ _ hgrp, kcal_lookup_isSome_iff]
  constructor
  · rintro ⟨s, hs, htriple⟩
    simp only [Prod.mk.injEq] at htriple
    obtain ⟨hsa, hsi, hsy⟩ := htriple
    have hmem := mem_kcal_df.mp hs
    refine ⟨obsToRaw s, hmem.1, by simp [hsa], by simp [hsi], by simp [hsy], ?_, by simp⟩
    simpa using (kcalRowPred_iff.mp hmem.2.2).2.2
  · rintro ⟨rr, hrr, hra, hri, hry, hrel, hval⟩
    obtain ⟨a2, i2, e2, y2, u2, v2⟩ := rr
    rw [Option.isSome_iff_exists] at hval
    obtain ⟨v, hv⟩ := hval
    simp only at hra hri hry hrel hv
    subst hv
    refine ⟨⟨a2, i2, e2, y2, u2, v⟩, ?_, by simp [hra, hri, hry]⟩
    rw [mem_kcal_df]
    refine ⟨hrr, ?_, ?_⟩
    · show AGGREGATE_AREAS.contains a2 = false
      have h1 := (mem_filtered_df.mp hr1).2.1
      have hc : r1.area = c := ha1
      rw [hra, ← hc]
      exact h1
    · rw [kcalRowPred_iff]
      have hb := filteredRowPred_iff.mp (mem_filtered_df.mp hr2f).2.2
      have hy2e : r2.year = y := hy2
      refine ⟨?_, ?_, hrel⟩
      · show (2010 : Int) ≤ y2
        rw [hry, ← hy2e]
        exact hb.1
      · show y2 ≤ (2022 : Int)
        rw [hry, ← hy2e]
        exact hb.2.1

/-- C2 counterexample: a source table holding a calorie observation with a
missing Value for (Brazil, Soyabeans, 2022): the emitted year record for that
triple has no `food_supply_kcal` key although a source observation with the
calorie element exists for the exact triple. -/
theorem c2_counterexample_nan_value :
    (∃ rec ∈ create_country_timeseries (filtered_df nanKcalRaw) (kcal_df nanKcalRaw),
      rec.country = "Brazil" ∧ rec.item = "Soyabeans" ∧
      ∃ yr ∈ rec.data, yr.year = 2022 ∧ getKey yr.metrics "food_supply_kcal" = none)
    ∧ ∃ rr ∈ nanKcalRaw, rr.area = "Brazil" ∧ rr.item = "Soyabeans" ∧ rr.year = 2022 ∧
        rr.element = kcalElementName := by
  exact ⟨by decide, by decide⟩

/-- C2 witness: the iff instantiated at the Brazil record of `brazilRaw`. -/
theorem c2_witness :
    (getKey [("production", (120000 : ℚ)), ("food_supply_kcal", 50)]
        "food_supply_kcal").isSome = true ↔
      ∃ rr ∈ brazilRaw, rr.area = "Brazil" ∧ rr.item = "Soyabeans" ∧ rr.year = 2022 ∧
        rr.element = kcalElementName ∧ rr.value.isSome = true :=
  c2_kcal_injection_iff brazilRaw
    (TimeseriesRecord.mk "Brazil" "Soyabeans" "t"
      [YearRec.mk 2022 [("production", 120000), ("food_supply_kcal", 50)]])
    (YearRec.mk 2022 [("production", 120000), ("food_supply_kcal", 50)])
    (by decide) (by decide)

/-! ## Claim C3 -/

/-- C3 counterexample: with the claim's source row present (Area "World"), the
timeseries output contains no record for (World, Wheat and products) at all —
"World" is removed by the aggregate-area filter before the calorie lookup is
built, so no year record with food_supply_kcal 310.5 exists. -/
theorem c3_counterexample_world_filtered :
    create_country_timeseries (filtered_df worldWheatRaw) (kcal_df worldWheatRaw) = []
    ∧ RawRow.mk "World" "Wheat and products" kcalElementName 2022 "kcal/capita/day"
        (some 310.5) ∈ worldWheatRaw
    ∧ "World" ∈ AGGREGATE_AREAS := by
  exact ⟨by decide, by decide, by decide⟩

/-- C3 (amended): for a non-aggregate area (France in place of the denylisted
"World"), the source row (Wheat and products, Food supply (kcal/capita/day),
2022, 310.5) yields a year record with food_supply_kcal equal to 310.5,
unscaled. -/
theorem c3_kcal_value_unscaled :
    ∃ rec ∈ create_country_timeseries (filtered_df franceWheatRaw) (kcal_df franceWheatRaw),
      rec.country = "France" ∧ rec.item = "Wheat and products" ∧
      ∃ yr ∈ rec.data, yr.year = 2022 ∧
        getKey yr.metrics "food_supply_kcal" = some 310.5 := by
  decide

/-! ## Claim C10 -/

/-- C10: in every trade-balance entry the `None` branch for net_importer is
unreachable: `netImporter` is always the boolean `imports > exports`,
`tradeBalance` always equals `exports - imports`, and a side with no source
rows for the group sums to 0. -/
theorem c10_net_importer_never_none (raw : List RawRow) :
    ∀ t ∈ create_trade_balance (filtered_df raw),
      t.netImporter = some (decide (t.imports > t.exports)) ∧
      t.tradeBalance = t.exports - t.imports ∧
      ((∀ r ∈ filtered_df raw, ¬(r.area = t.country ∧ r.item = t.item ∧ r.year = t.year ∧
          r.element = "Import quantity")) → t.imports = 0) ∧
      ((∀ r ∈ filtered_df raw, ¬(r.area = t.country ∧ r.item = t.item ∧ r.year = t.year ∧
          r.element = "Export quantity")) → t.exports = 0) := by
  intro t ht
  unfold create_trade_balance at ht
  rw [List.mem_map] at ht
  obtain ⟨tr, htr, rfl⟩ := ht
  obtain ⟨c, i, y⟩ := tr
  refine ⟨by simp [tradeEntryFor, notna], by simp [tradeEntryFor, notna], ?_, ?_⟩
  · intro hno
    have hnil : (((tradeDataOf (filtered_df raw)).filter fun r =>
        r.area == c && r.item == i && r.year == y).filter fun r =>
          r.element == "Import quantity") = [] := by
      apply filter_eq_nil_of
      intro a ha hel
      have hag := List.mem_filter.mp ha
      have hat := List.mem_filter.mp hag.1
      have haf : a ∈ filtered_df raw := hat.1
      simp only [Bool.and_eq_true, beq_iff_eq] at hag
      exact hno a haf ⟨hag.2.1.1, hag.2.1.2, hag.2.2, by simpa using hel⟩
    simp [tradeEntryFor, notna, hnil, sumQ]
  · intro hno
    have hnil : (((tradeDataOf (filtered_df raw)).filter fun r =>
        r.area == c && r.item == i && r.year == y).filter fun r =>
          r.element == "Export quantity") = [] := by
      apply filter_eq_nil_of
      intro a ha hel
      have hag := List.mem_filter.mp ha
      have hat := List.mem_filter.mp hag.1
      have haf : a ∈ filtered_df raw := hat.1
      simp only [Bool.and_eq_true, beq_iff_eq] at hag
      exact hno a haf ⟨hag.2.1.1, hag.2.1.2, hag.2.2, by simpa using hel⟩
    simp [tradeEntryFor, notna, hnil, sumQ]

/-- C10 witness: the trade-balance entry of `tradeRaw` (imports 3, exports
90) has netImporter `some false`, the boolean of imports > exports. -/
theorem c10_witness :
    (TradeEntry.mk "Brazil" "Soyabeans" 2022 "1000 t" 3 90 87 (some false)).netImporter =
      some (decide ((TradeEntry.mk "Brazil" "Soyabeans" 2022 "1000 t" 3 90 87
        (some false)).imports >
          (TradeEntry.mk "Brazil" "Soyabeans" 2022 "1000 t" 3 90 87 (some false)).exports)) :=
  (c10_net_importer_never_none tradeRaw
    (TradeEntry.mk "Brazil" "Soyabeans" 2022 "1000 t" 3 90 87 (some false)) (by decide)).1

/-! ## Claim C7 -/

theorem mem_networkLinks {trade : List Obs} {l : NetLink} :
    l ∈ networkLinks trade ↔
      ∃ item ∈ linkItems trade, ∃ e ∈ top5Exporters trade item,
        ∃ i ∈ top5Importers trade item, e.area ≠ i.area ∧
          l = { source := e.area, target := i.area,
                value := min e.value i.value * (1 / 10), item := item } := by
  unfold networkLinks
  simp only [List.mem_flatMap, List.mem_filterMap]
  constructor
  · rintro ⟨item, hitem, e, he, i, hi, hif⟩
    by_cases hne : e.area ≠ i.area
    · rw [if_pos hne] at hif
      exact ⟨item, hitem, e, he, i, hi, hne, (Option.some.inj hif).symm⟩
    · rw [if_neg hne] at hif
      simp at hif
  · rintro ⟨item, hitem, e, he, i, hi, hne, rfl⟩
    exact ⟨item, hitem, e, he, i, hi, by rw [if_pos hne]⟩

/-- C7 (amended): the network links are exactly one edge per ordered pair of
a top-5 export row and a top-5 import row with distinct countries, each worth
10% of the smaller of the two volumes — but the items iterated are the first
(at most) ten distinct items in row order of the significant 2022 trade
table, not the ten highest-volume items. -/
theorem c7_network_links_first_ten (filtered : List Obs) (l : NetLink) :
    l ∈ (create_network_data filtered).links ↔
      ∃ item ∈ (dedupFirst ((trade2022Of filtered).map (·.item))).take 10,
        ∃ e ∈ top5Exporters (trade2022Of filtered) item,
          ∃ i ∈ top5Importers (trade2022Of filtered) item, e.area ≠ i.area ∧
            l = { source := e.area, target := i.area,
                  value := min e.value i.value * (1 / 10), item := item } :=
  mem_networkLinks

/-- C7 counterexample: an eleven-item 2022 trade table in which item "K" has
by far the highest total trade volume (and a valid exporter/importer pair),
yet no link with item "K" is produced, because the loop takes the first ten
distinct items in row order, not the ten highest-volume items. -/
theorem c7_counterexample_highest_volume_item_skipped :
    (∀ l ∈ (create_network_data (filtered_df networkCexRaw)).links, ¬ l.item = "K")
    ∧ (∀ it ∈ dedupFirst ((trade2022Of (filtered_df networkCexRaw)).map (·.item)),
        ¬ it = "K" →
          specItemVolume (filtered_df networkCexRaw) it <
            specItemVolume (filtered_df networkCexRaw) "K")
    ∧ (∃ e ∈ top5Exporters (trade2022Of (filtered_df networkCexRaw)) "K",
        ∃ i ∈ top5Importers (trade2022Of (filtered_df networkCexRaw)) "K",
          ¬ e.area = i.area)
    ∧ (∃ l ∈ (create_network_data (filtered_df networkCexRaw)).links, l.item = "A") := by
  exact ⟨by decide, by decide, by decide, by decide⟩

/-! ## Claim C5 -/

/-- C5 (amended): every year record produced by parse_enhanced.py's
timeseries assembler has a year in [2010, 2022]; the extend variant does not
enforce this for its newly-synthesized entries (see the counterexample). -/
theorem c5_years_within_bounds (raw : List RawRow) :
    ∀ rec ∈ create_country_timeseries (filtered_df raw) (kcal_df raw), ∀ yr ∈ rec.data,
      2010 ≤ yr.year ∧ yr.year ≤ 2022 := by
  intro rec hrec yr hyr
  obtain ⟨p, _hp, rfl⟩ := mem_create_country_timeseries.mp hrec
  obtain ⟨y, ⟨r2, hr2, hy2⟩, rfl⟩ := mem_recordFor_data.mp hyr
  rw [yearRecordFor_year]
  have hb := filteredRowPred_iff.mp (mem_filtered_df.mp (mem_groupOf.mp hr2).1).2.2
  exact ⟨hy2 ▸ hb.1, hy2 ▸ hb.2.1⟩

/-- C5 witness: the year record of the Brazil table has year 2022, inside the
bounds. -/
theorem c5_witness :
    2010 ≤ (YearRec.mk 2022 [("production", (120000 : ℚ)), ("food_supply_kcal", 50)]).year ∧
      (YearRec.mk 2022 [("production", (120000 : ℚ)), ("food_supply_kcal", 50)]).year ≤ 2022 :=
  c5_years_within_bounds brazilRaw
    (TimeseriesRecord.mk "Brazil" "Soyabeans" "t"
      [YearRec.mk 2022 [("production", 120000), ("food_supply_kcal", 50)]])
    (by decide)
    (YearRec.mk 2022 [("production", 120000), ("food_supply_kcal", 50)])
    (by decide)

/-- C5 counterexample: `extend_timeseries.py` applies no year filter — a Feed
row with year 1999 yields a synthesized year record with year 1999, outside
[2010, 2022]. -/
theorem c5_counterexample_extend_year_1999 :
    ∃ rec ∈ extend_timeseries_with_feed_and_calories oldFeedDf [],
      ∃ yr ∈ rec.data, yr.year = 1999 ∧ ¬ (2010 ≤ yr.year ∧ yr.year ≤ 2022) := by
  decide

/-! ## Claim C4 -/

theorem removeAggregateAreas_idem (raw : List RawRow) :
    removeAggregateAreas (removeAggregateAreas raw) = removeAggregateAreas raw := by
  unfold removeAggregateAreas
  rw [List.filter_filter]
  simp only [Bool.and_self]

theorem filtered_df_removeAggregates (raw : List RawRow) :
    filtered_df (removeAggregateAreas raw) = filtered_df raw := by
  unfold filtered_df
  rw [removeAggregateAreas_idem]

theorem kcal_df_removeAggregates (raw : List RawRow) :
    kcal_df (removeAggregateAreas raw) = kcal_df raw := by
  unfold kcal_df
  rw [removeAggregateAreas_idem]

theorem not_aggregate_of_filtered {raw : List RawRow} {o : Obs} (h : o ∈ filtered_df raw) :
    ¬ o.area ∈ AGGREGATE_AREAS := by
  have := (mem_filtered_df.mp h).2.1
  simpa using this

theorem mem_producersFrom (n : Nat) {l : List Obs} {p : ProducerEntry}
    (h : p ∈ producersFrom n l) : ∃ r ∈ l, p.country = r.area := by
  induction l generalizing n with
  | nil => simp [producersFrom] at h
  | cons r rest ih =>
    rw [producersFrom] at h
    rcases List.mem_cons.mp h with h | h
    · exact ⟨r, List.mem_cons_self r rest, by rw [h]⟩
    · obtain ⟨r2, hr2, hc⟩ := ih _ h
      exact ⟨r2, List.mem_cons_of_mem _ hr2, hc⟩

theorem mem_of_mem_nlargest {n : Nat} {rows : List Obs} {r : Obs}
    (h : r ∈ nlargestByValue n rows) : r ∈ rows :=
  (mem_sortBy _ _ _).mp (List.take_subset _ _ h)

theorem mem_networkNodesFrom {trade : List Obs} {n : NetNode} :
    ∀ {start : Nat} {countries : List String},
      n ∈ networkNodesFrom trade start countries → n.id ∈ countries := by
  intro start countries
  induction countries generalizing start with
  | nil => intro h; simp [networkNodesFrom] at h
  | cons c rest ih =>
    intro h
    rw [networkNodesFrom] at h
    rcases List.mem_cons.mp h with h | h
    · exact List.mem_cons.mpr (Or.inl (by rw [h]))
    · exact List.mem_cons_of_mem _ (ih h)

@[simp] theorem tradeEntryFor_country (filtered : List Obs) (c i : String) (y : Int) :
    (tradeEntryFor filtered c i y).country = c := rfl

/-- C4 (amended): rows whose Area is in the aggregate denylist have no effect
on any of the five outputs of `parse_enhanced.py` (removing them from the
source changes nothing), and no denylisted area name appears as a country in
any of those outputs; `extend_timeseries.py`, however, applies no area filter
(see the counterexample). -/
theorem c4_denylisted_rows_no_output_record :
    (∀ raw : List RawRow, enhancedOutputs (removeAggregateAreas raw) = enhancedOutputs raw)
    ∧ (∀ (raw : List RawRow) (rec : TimeseriesRecord),
        rec ∈ (enhancedOutputs raw).timeseries → ¬ rec.country ∈ AGGREGATE_AREAS)
    ∧ (∀ (raw : List RawRow) (t : TradeEntry),
        t ∈ (enhancedOutputs raw).tradeBalance → ¬ t.country ∈ AGGREGATE_AREAS)
    ∧ (∀ (raw : List RawRow) (ir : ItemRanking) (p : ProducerEntry),
        ir ∈ (enhancedOutputs raw).rankings → p ∈ ir.producers →
          ¬ p.country ∈ AGGREGATE_AREAS)
    ∧ (∀ (raw : List RawRow) (cp : String × ℚ),
        cp ∈ (enhancedOutputs raw).summary.topProducingCountries →
          ¬ cp.1 ∈ AGGREGATE_AREAS)
    ∧ (∀ (raw : List RawRow) (n : NetNode),
        n ∈ (enhancedOutputs raw).network.nodes → ¬ n.id ∈ AGGREGATE_AREAS)
    ∧ (∀ (raw : List RawRow) (l : NetLink),
        l ∈ (enhancedOutputs raw).network.links →
          ¬ l.source ∈ AGGREGATE_AREAS ∧ ¬ l.target ∈ AGGREGATE_AREAS) := by
  refine ⟨?_, ?_, ?_, ?_, ?_, ?_, ?_⟩
  · intro raw
    simp [enhancedOutputs, filtered_df_removeAggregates, kcal_df_removeAggregates]
  · intro raw rec h
    obtain ⟨p, ⟨r1, hr1, ha1, _⟩, rfl⟩ := mem_create_country_timeseries.mp h
    rw [recordFor_country, ← ha1]
    exact not_aggregate_of_filtered hr1
  · intro raw t ht
    have ht2 : t ∈ create_trade_balance (filtered_df raw) := ht
    unfold create_trade_balance at ht2
    rw [List.mem_map] at ht2
    obtain ⟨tr, htr, rfl⟩ := ht2
    rw [mem_sortBy, mem_dedupFirst, List.mem_map] at htr
    obtain ⟨r, hr, he⟩ := htr
    rw [tradeEntryFor_country, ← he]
    exact not_aggregate_of_filtered (List.mem_filter.mp hr).1
  · intro raw ir p hir hp
    have hir2 : ir ∈ create_production_rankings (filtered_df raw) := hir
    unfold create_production_rankings at hir2
    rw [List.mem_map] at hir2
    obtain ⟨item, _, rfl⟩ := hir2
    have hp2 : p ∈ producersFrom 1 (nlargestByValue 20
        (((filtered_df raw).filter fun r => r.element == "Production" && r.year == 2022).filter
          fun r => r.item == item)) := hp
    obtain ⟨r, hr, hc⟩ := mem_producersFrom 1 hp2
    rw [hc]
    exact not_aggregate_of_filtered
      (List.mem_filter.mp (List.mem_filter.mp (mem_of_mem_nlargest hr)).1).1
  · intro raw cp h
    have h2 : cp ∈ (sortBy pairValueDesc (countryTotalsOf (filtered_df raw))).take 30 := h
    have h3 := (mem_sortBy _ _ _).mp (List.take_subset _ _ h2)
    unfold countryTotalsOf at h3
    rw [List.mem_map] at h3
    obtain ⟨c, hc, he⟩ := h3
    rw [mem_sortBy, mem_dedupFirst, List.mem_map] at hc
    obtain ⟨r, hr, hra⟩ := hc
    rw [← he]
    show ¬ c ∈ AGGREGATE_AREAS
    rw [← hra]
    exact not_aggregate_of_filtered (List.mem_filter.mp hr).1
  · intro raw n h
    have h2 : n ∈ networkNodesFrom (trade2022Of (filtered_df raw)) 0
        (dedupFirst ((trade2022Of (filtered_df raw)).map (·.area))) := h
    have h3 := mem_networkNodesFrom h2
    rw [mem_dedupFirst, List.mem_map] at h3
    obtain ⟨r, hr, hid⟩ := h3
    rw [← hid]
    exact not_aggregate_of_filtered (List.mem_filter.mp hr).1
  · intro raw l h
    have h2 : l ∈ networkLinks (trade2022Of (filtered_df raw)) := h
    obtain ⟨item, _, e, he, i, hi, hne, rfl⟩ := mem_networkLinks.mp h2
    constructor
    · show ¬ e.area ∈ AGGREGATE_AREAS
      exact not_aggregate_of_filtered
        (List.mem_filter.mp
          (List.mem_filter.mp (List.mem_filter.mp (mem_of_mem_nlargest he)).1).1).1
    · show ¬ i.area ∈ AGGREGATE_AREAS
      exact not_aggregate_of_filtered
        (List.mem_filter.mp
          (List.mem_filter.mp (List.mem_filter.mp (mem_of_mem_nlargest hi)).1).1).1

/-- C4 counterexample: `extend_timeseries.py` applies no aggregate-area
filter: a World "Grand Total" calorie row yields an output record with
country "World", a denylisted aggregate area. -/
theorem c4_counterexample_extend_world_record :
    (∃ rec ∈ extend_timeseries_with_feed_and_calories worldGrandTotalDf [],
      rec.country = "World")
    ∧ "World" ∈ AGGREGATE_AREAS
    ∧ (∃ rr ∈ worldGrandTotalDf, rr.area = "World") := by
  exact ⟨by decide, by decide, by decide⟩

/-! ## Claim C8 -/

theorem preservedYear_refl (ks : List String) (yr : YearRec) : PreservedYear ks yr yr :=
  ⟨rfl, fun _ _ => rfl⟩

theorem preservedYear_trans {ks : List String} {a b c : YearRec}
    (h1 : PreservedYear ks a b) (h2 : PreservedYear ks b c) : PreservedYear ks a c :=
  ⟨h2.1.trans h1.1, fun k hk => (h2.2 k hk).trans (h1.2 k hk)⟩

theorem preservedEntry_refl (ks : List String) (e : TimeseriesRecord) :
    PreservedEntry ks e e :=
  ⟨rfl, rfl, rfl, List.forall₂_same.mpr fun yr _ => preservedYear_refl ks yr⟩

theorem forall₂_trans_of {α : Type} {R : α → α → Prop}
    (htr : ∀ a b c, R a b → R b c → R a c) :
    ∀ {l1 l2 l3 : List α}, List.Forall₂ R l1 l2 → List.Forall₂ R l2 l3 →
      List.Forall₂ R l1 l3 := by
  intro l1 l2 l3 h1
  induction h1 generalizing l3 with
  | nil =>
    intro h2
    cases h2
    exact List.Forall₂.nil
  | cons ha hl ih =>
    intro h2
    cases h2 with
    | cons hb hl2 => exact List.Forall₂.cons (htr _ _ _ ha hb) (ih hl2)

theorem preservedEntry_trans {ks : List String} {a b c : TimeseriesRecord}
    (h1 : PreservedEntry ks a b) (h2 : PreservedEntry ks b c) : PreservedEntry ks a c :=
  ⟨h2.1.trans h1.1, h2.2.1.trans h1.2.1, h2.2.2.1.trans h1.2.2.1,
    @forall₂_trans_of _ (PreservedYear ks)
      (fun _ _ _ u v => preservedYear_trans u v) _ _ _ h1.2.2.2 h2.2.2.2⟩

theorem preserved_refl (ks : List String) (ts : List TimeseriesRecord) :
    Preserved ks ts ts :=
  List.forall₂_same.mpr fun e _ => preservedEntry_refl ks e

theorem preserved_trans {ks : List String} {a b c : List TimeseriesRecord}
    (h1 : Preserved ks a b) (h2 : Preserved ks b c) : Preserved ks a c :=
  @forall₂_trans_of _ (PreservedEntry ks)
    (fun _ _ _ u v => preservedEntry_trans u v) _ _ _ h1 h2

theorem forall₂_setFirstYear (ks : List String) (y : Int) (key : String) (v : ℚ)
    (hkey : key ∈ ks) (data : List YearRec) :
    List.Forall₂ (PreservedYear ks) data (setFirstYear y key v data) := by
  induction data with
  | nil => exact List.Forall₂.nil
  | cons yr rest ih =>
    rw [setFirstYear]
    by_cases h : yr.year == y
    · rw [if_pos h]
      refine List.Forall₂.cons ⟨rfl, fun k hk => ?_⟩
        (List.forall₂_same.mpr fun x _ => preservedYear_refl ks x)
      rw [getKey_setKey, if_neg (fun (he : key = k) => hk (he ▸ hkey))]
    · rw [if_neg h]
      exact List.Forall₂.cons (preservedYear_refl ks yr) ih

theorem preservedEntry_setMetric (ks : List String) (key : String) (y : Int) (v : ℚ)
    (hkey : key ∈ ks) (e : TimeseriesRecord) :
    PreservedEntry ks e { e with data := setFirstYear y key v e.data } :=
  ⟨rfl, rfl, rfl, forall₂_setFirstYear ks y key v hkey e.data⟩

theorem preserved_modifyIdx (ks : List String) {f : TimeseriesRecord → TimeseriesRecord}
    (hf : ∀ e, PreservedEntry ks e (f e)) :
    ∀ (idx : Nat) (ts : List TimeseriesRecord), Preserved ks ts (modifyIdx f idx ts) := by
  intro idx ts
  induction ts generalizing idx with
  | nil => cases idx <;> exact List.Forall₂.nil
  | cons a rest ih =>
    cases idx with
    | zero =>
      exact List.Forall₂.cons (hf a)
        (List.forall₂_same.mpr fun x _ => preservedEntry_refl ks x)
    | succ n => exact List.Forall₂.cons (preservedEntry_refl ks a) (ih n)

theorem preserved_applyInjRow (ks : List String) (key : String) (hkey : key ∈ ks)
    (ts0 acc : List TimeseriesRecord) (r : RawRow) :
    Preserved ks acc (applyInjRow key ts0 acc r) := by
  unfold applyInjRow
  cases r.value with
  | none => exact preserved_refl ks acc
  | some v =>
    cases lastIdxOf ts0 r.area r.item with
    | none => exact preserved_refl ks acc
    | some idx =>
      exact preserved_modifyIdx ks
        (fun e => preservedEntry_setMetric ks key r.year v hkey e) idx acc

theorem preserved_foldl (ks : List String) (key : String) (hkey : key ∈ ks)
    (ts0 : List TimeseriesRecord) :
    ∀ (rows : List RawRow) (acc : List TimeseriesRecord),
      Preserved ks acc (rows.foldl (applyInjRow key ts0) acc) := by
  intro rows
  induction rows with
  | nil => intro acc; exact preserved_refl ks acc
  | cons r rest ih =>
    intro acc
    rw [List.foldl_cons]
    exact preserved_trans (preserved_applyInjRow ks key hkey ts0 acc r) (ih _)

theorem yr_metrics_of_feedPlaceholder {itemFeed : List RawRow} {country : String}
    {yr : YearRec} (h : yr ∈ feedPlaceholderYearData itemFeed country) :
    getKey yr.metrics "production" = some 0 ∧ getKey yr.metrics "imports" = some 0 ∧
      getKey yr.metrics "domestic_supply" = some 0 ∧ getKey yr.metrics "exports" = none := by
  unfold feedPlaceholderYearData at h
  rw [List.mem_filterMap] at h
  obtain ⟨r, _, hmap⟩ := h
  rcases hv : r.value with _ | v
  · rw [hv] at hmap
    simp at hmap
  · rw [hv] at hmap
    have := Option.some.inj hmap
    subst this
    exact ⟨rfl, rfl, rfl, rfl⟩

theorem yr_metrics_of_gtPlaceholder {gtRows : List RawRow} {country : String}
    {yr : YearRec} (h : yr ∈ gtPlaceholderYearData gtRows country) :
    getKey yr.metrics "production" = some 0 ∧ getKey yr.metrics "imports" = some 0 ∧
      getKey yr.metrics "domestic_supply" = some 0 ∧ getKey yr.metrics "exports" = none := by
  unfold gtPlaceholderYearData at h
  rw [List.mem_filterMap] at h
  obtain ⟨r, _, hmap⟩ := h
  rcases hv : r.value with _ | v
  · rw [hv] at hmap
    simp at hmap
  · rw [hv] at hmap
    have := Option.some.inj hmap
    subst this
    exact ⟨rfl, rfl, rfl, rfl⟩

theorem data_of_newFeedEntryFor {itemFeed : List RawRow} {item country : String}
    {rec : TimeseriesRecord} (h : newFeedEntryFor itemFeed item country = some rec) :
    ∀ yr ∈ rec.data, yr ∈ feedPlaceholderYearData itemFeed country := by
  unfold newFeedEntryFor at h
  by_cases hE : (feedPlaceholderYearData itemFeed country).isEmpty
  · rw [if_pos hE] at h
    simp at h
  · rw [if_neg hE] at h
    have := Option.some.inj h
    subst this
    intro yr hyr
    exact (mem_sortBy _ _ _).mp hyr

theorem data_of_gtEntryFor {gtRows : List RawRow} {country : String}
    {rec : TimeseriesRecord} (h : gtEntryFor gtRows country = some rec) :
    ∀ yr ∈ rec.data, yr ∈ gtPlaceholderYearData gtRows country := by
  unfold gtEntryFor at h
  by_cases hE : (gtPlaceholderYearData gtRows country).isEmpty
  · rw [if_pos hE] at h
    simp at h
  · rw [if_neg hE] at h
    have := Option.some.inj h
    subst this
    intro yr hyr
    exact (mem_sortBy _ _ _).mp hyr

/-- C8 (amended): every year record of a newly-synthesized entry of the
extend variant carries explicit 0 placeholders for the three keys
`production`, `imports`, `domestic_supply` — but no `exports` key — while the
injection passes into existing entries only ever touch the keys `feed` and
`food_supply_kcal`: any other metric key keeps exactly its previous binding
(in particular, absent metrics stay omitted rather than zero-filled). -/
theorem c8_placeholder_keys (df : List RawRow) (ts : List TimeseriesRecord) :
    (∀ rec ∈ newFeedEntries df ts ++ grandTotalEntries df, ∀ yr ∈ rec.data,
      getKey yr.metrics "production" = some 0 ∧ getKey yr.metrics "imports" = some 0 ∧
      getKey yr.metrics "domestic_supply" = some 0 ∧ getKey yr.metrics "exports" = none)
    ∧ Preserved ["feed", "food_supply_kcal"] ts (extendUpdatedPart df ts) := by
  constructor
  · intro rec hrec yr hyr
    rcases List.mem_append.mp hrec with h | h
    · have h2 : rec ∈ ((dedupFirst ((df.filter fun r => r.element == "Feed").map
          (·.item))).filter fun it =>
            !((ts.map (·.item)).contains it)).flatMap fun item =>
          (dedupFirst (((df.filter fun r => r.element == "Feed").filter fun r =>
            r.item == item).map (·.area))).filterMap
            (newFeedEntryFor ((df.filter fun r => r.element == "Feed").filter fun r =>
              r.item == item) item) := h
      rw [List.mem_flatMap] at h2
      obtain ⟨item, _, h2⟩ := h2
      rw [List.mem_filterMap] at h2
      obtain ⟨country, _, hif⟩ := h2
      exact yr_metrics_of_feedPlaceholder (data_of_newFeedEntryFor hif yr hyr)
    · have h2 : rec ∈ (dedupFirst ((df.filter fun r =>
          r.element == kcalElementName && r.item == "Grand Total").map (·.area))).filterMap
            (gtEntryFor (df.filter fun r =>
              r.element == kcalElementName && r.item == "Grand Total")) := h
      rw [List.mem_filterMap] at h2
      obtain ⟨country, _, hif⟩ := h2
      exact yr_metrics_of_gtPlaceholder (data_of_gtEntryFor hif yr hyr)
  · unfold extendUpdatedPart injectPhase
    exact preserved_trans
      (preserved_foldl _ "feed" (by decide) ts _ ts)
      (preserved_foldl _ "food_supply_kcal" (by decide) _ _ _)

/-- C8 counterexample: a synthesized entry of the extend variant (from a
single Feed row) has a year record with production/imports/domestic_supply
placeholders but no `exports` key, refuting the claim that all four keys get
explicit zero placeholders. -/
theorem c8_counterexample_no_exports_key :
    ∃ rec ∈ extend_timeseries_with_feed_and_calories synthFeedDf [],
      ∃ yr ∈ rec.data,
        getKey yr.metrics "production" = some 0 ∧ getKey yr.metrics "imports" = some 0 ∧
        getKey yr.metrics "domestic_supply" = some 0 ∧ getKey yr.metrics "exports" = none := by
  decide
